import Mathlib

/-!
Shallow embedding of the image-to-animated-video application:
the task-submission endpoint (POST /api/video/generate), the status
endpoint (GET /api/video/status), and the client-side generation
orchestrator (upload handling, the poll loop, and reset).

Modelling conventions:
* JavaScript optional / possibly-undefined values become `Option`;
  `none` stands for an absent key (or `undefined` / `null`).
* JavaScript truthiness on strings: `undefined`, `null` and `""` are
  falsy, every other string is truthy (`strTruthy`); on numbers `0` is
  falsy (`intTruthy`).
* JavaScript numbers that the code only ever uses as integers
  (duration, fps, HTTP status codes, poll counters) become `Int` / `Nat`;
  the progress estimate, computed with division, becomes `Rat`.
* The provider SDK is out of scope: handlers take the result the
  provider would return (`Except` for a thrown error) as a parameter,
  and report how many provider calls they made.  Client-handle creation
  is modelled as always succeeding, matching the black-box treatment of
  the SDK.
* React `useState` setters become explicit record updates on a
  `Session` record; toast notifications are collected in a list.
-/

/-- JS truthiness of a possibly-absent string: absent and `""` are falsy. -/
def strTruthy : Option String → Bool
  | none => false
  | some s => !(s == "")

/-- JS truthiness of a possibly-absent number: absent and `0` are falsy. -/
def intTruthy : Option Int → Bool
  | none => false
  | some n => !(n == 0)

/-- JS `a || b` on possibly-absent strings: `b` when `a` is falsy. -/
def jsOr (a b : Option String) : Option String :=
  if strTruthy a then a else b

/-- JS `a || d` where `d` is a present default string. -/
def orDefaultStr (a : Option String) (d : String) : String :=
  match a with
  | none => d
  | some s => if s == "" then d else s

/-- JS `a || d` where `d` is a present default number. -/
def orDefaultInt (a : Option Int) (d : Int) : Int :=
  match a with
  | none => d
  | some n => if n == 0 then d else n

/-- JS `s.startsWith(pre)`: character-level prefix test. -/
def jsStartsWith (s pre : String) : Bool :=
  List.isPrefixOf pre.data s.data

/-! ## Provider response shape (status query) -/

/-- One entry of the wrapped `video_result` list in a provider response. -/
structure VideoResultEntry where
  url : Option String
deriving DecidableEq

/-- Raw provider result for a status query; every result-location field is
optional because provider responses are not strictly typed. -/
structure ProviderResult where
  task_status : String
  video_result : Option (List VideoResultEntry)
  video_url : Option String
  url : Option String
  video : Option String
deriving DecidableEq

/-- `result.video_result?.[0]?.url`: the optional-chaining access of the
wrapped-list entry url. -/
def wrappedUrl (r : ProviderResult) : Option String :=
  match r.video_result with
  | none => none
  | some l =>
    match l.head? with
    | none => none
    | some e => e.url

/-- `result.video_result?.[0]?.url || result.video_url || result.url ||
result.video`: the ordered-fallback URL lookup of the status handler. -/
def resolveVideoUrl (r : ProviderResult) : Option String :=
  jsOr (wrappedUrl r) (jsOr r.video_url (jsOr r.url r.video))

/-- The four recognized URL fields in their checked priority order,
used to state the first-non-empty specification of the lookup. -/
def urlFields (r : ProviderResult) : List (Option String) :=
  [wrappedUrl r, r.video_url, r.url, r.video]

/-- Modelled from the spec wording: the first non-empty value among the
recognized URL fields, for comparison with `resolveVideoUrl`. -/
def specFirstNonEmptyUrl (r : ProviderResult) : Option String :=
  Option.join ((urlFields r).find? strTruthy)

/-! ## Status endpoint: GET /api/video/status -/

/-- JSON body plus HTTP status of a status-endpoint response.
`videoUrl = none` models the key being absent from the JSON object
(the handler only ever adds the key with a truthy value). -/
structure StatusResponse where
  httpStatus : Nat
  taskId : Option String
  status : Option String
  videoUrl : Option String
  error : Option String
deriving DecidableEq

/-- The 400 response for a missing (or empty, hence falsy) task id. -/
def statusBadRequest : StatusResponse :=
  ⟨400, none, none, none, some "Task ID is required"⟩

/-- The GET handler of /api/video/status.  `taskIdParam` is
`searchParams.get('taskId')` (`none` when the parameter is absent, the
raw string otherwise); `queryResult` is what `zai.async.result.query`
would return for this task (`Except.error` models a thrown error).
The second component counts provider queries made by the invocation. -/
def statusGET (taskIdParam : Option String)
    (queryResult : Except String ProviderResult) : StatusResponse × Nat :=
  match taskIdParam with
  | none => (statusBadRequest, 0)
  | some t =>
    if t == "" then (statusBadRequest, 0)
    else
      match queryResult with
      | Except.error e => (⟨500, none, none, none, some e⟩, 1)
      | Except.ok r =>
        let base : StatusResponse := ⟨200, some t, some r.task_status, none, none⟩
        if r.task_status == "SUCCESS" then
          let u := resolveVideoUrl r
          if strTruthy u then ({ base with videoUrl := u }, 1)
          else (base, 1)
        else (base, 1)

/-! ## Submission endpoint: POST /api/video/generate -/

/-- Parsed JSON body of a submission request; every field may be absent. -/
structure GenerateBody where
  imageData : Option String
  prompt : Option String
  quality : Option String
  duration : Option Int
  fps : Option Int
  size : Option String
deriving DecidableEq

/-- Payload handed to `zai.video.generations.create`. -/
structure ProviderRequest where
  image_url : String
  prompt : String
  quality : String
  duration : Int
  fps : Int
  size : String
deriving DecidableEq

/-- Provider task object returned by a successful creation call. -/
structure ProviderTask where
  id : String
  task_status : String
deriving DecidableEq

/-- JSON body plus HTTP status of a submission-endpoint response. -/
structure GenerateResponse where
  httpStatus : Nat
  success : Option Bool
  taskId : Option String
  status : Option String
  error : Option String
deriving DecidableEq

/-- Everything observable about one invocation of the POST handler: the
HTTP response, whether the provider client was obtained, and the payload
of the generation call when one was made. -/
structure PostOutcome where
  response : GenerateResponse
  clientCreated : Bool
  providerCall : Option ProviderRequest
deriving DecidableEq

/-- Default prompt substituted when the request prompt is falsy. -/
def defaultPrompt : String :=
  "Make this image come alive with smooth, loopable motion"

/-- The POST handler of /api/video/generate.  `createResult` is what the
provider generation-creation call would return for the forwarded payload
(`Except.error` models a thrown error). -/
def generatePOST (body : GenerateBody)
    (createResult : Except String ProviderTask) : PostOutcome :=
  if strTruthy body.imageData == false then
    ⟨⟨400, none, none, none, some "Image data is required"⟩, false, none⟩
  else
    match body.imageData with
    | none => ⟨⟨400, none, none, none, some "Image data is required"⟩, false, none⟩
    | some img =>
      if jsStartsWith img "data:image/" == false then
        ⟨⟨400, none, none, none,
          some "Invalid image data format. Must be a base64-encoded image with data URL format"⟩,
         false, none⟩
      else
        let req : ProviderRequest :=
          ⟨img,
           orDefaultStr body.prompt defaultPrompt,
           orDefaultStr body.quality "speed",
           orDefaultInt body.duration 5,
           orDefaultInt body.fps 30,
           orDefaultStr body.size "1024x1024"⟩
        match createResult with
        | Except.error e => ⟨⟨500, none, none, none, some e⟩, true, some req⟩
        | Except.ok task =>
          ⟨⟨200, some true, some task.id, some task.task_status, none⟩, true, some req⟩

/-- Validity test applied by the handler before any provider activity:
the image data must be present and carry the image data-URL prefix
(an empty string fails the prefix test, so falsiness is subsumed). -/
def imageDataValid : Option String → Bool
  | none => false
  | some s => jsStartsWith s "data:image/"

/-! ## Orchestrator: session state, upload handlers, poll loop, reset -/

/-- The `GenerateState` record of the page component. -/
structure GenerateState where
  isUploading : Bool
  isGenerating : Bool
  isPolling : Bool
  progress : Rat
  status : String
deriving DecidableEq

/-- The all-cleared generation state used initially, on reset, and in
every catch branch. -/
def zeroGenerateState : GenerateState := ⟨false, false, false, 0, ""⟩

/-- The session-level React state of the page component. -/
structure Session where
  uploadedImage : Option String
  generatedVideoUrl : Option String
  taskId : Option String
  generateState : GenerateState
deriving DecidableEq

/-- Initial session state of a freshly mounted page. -/
def emptySession : Session := ⟨none, none, none, zeroGenerateState⟩

/-- A toast notification; `destructive` is the error variant. -/
structure Toast where
  title : String
  description : String
  destructive : Bool
deriving DecidableEq

/-- A browser file as the upload handlers see it: byte size and MIME type. -/
structure JsFile where
  size : Nat
  type : String
deriving DecidableEq

/-- 10MB upload limit. -/
def maxFileSize : Nat := 10 * 1024 * 1024

/-- Rejection toast for an oversized file. -/
def tooLargeToast : Toast :=
  ⟨"File too large", "Please upload an image smaller than 10MB", true⟩

/-- Rejection toast for a non-image file in the file-picker handler. -/
def invalidTypeToast : Toast :=
  ⟨"Invalid file type", "Please upload an image file (JPEG, PNG, WebP)", true⟩

/-- Toast shown on a successful upload. -/
def uploadedToast : Toast :=
  ⟨"Image uploaded", "Your image is ready to be transformed into a video", false⟩

/-- What an upload handler decides to do with a file: accept it and read
it, reject it with a toast, or fall through without any visible effect. -/
inductive UploadAction where
  | accept
  | reject (t : Toast)
  | ignore
deriving DecidableEq

/-- `handleImageUpload` (file-picker path): size is checked first, then
the MIME type; both failures produce a destructive toast. -/
def handleImageUpload (f : JsFile) : UploadAction :=
  if f.size > maxFileSize then UploadAction.reject tooLargeToast
  else if (jsStartsWith f.type "image/") == false then UploadAction.reject invalidTypeToast
  else UploadAction.accept

/-- `handleDrop` (drag-and-drop path): a non-image file fails the outer
guard and is dropped silently; an oversized image file gets a toast. -/
def handleDrop (f : JsFile) : UploadAction :=
  if jsStartsWith f.type "image/" then
    if f.size > maxFileSize then UploadAction.reject tooLargeToast
    else UploadAction.accept
  else UploadAction.ignore

/-- Effect of an upload decision on the session.  `dataUrl` is the
data-URL the FileReader produces for an accepted file; acceptance stores
it and clears the prior video URL, task id and generation state. -/
def applyUpload (s : Session) (dataUrl : String) : UploadAction → Session × List Toast
  | UploadAction.accept =>
    (⟨some dataUrl, none, none, zeroGenerateState⟩, [uploadedToast])
  | UploadAction.reject t => (s, [t])
  | UploadAction.ignore => (s, [])

/-- `resetUpload`: clears the image, video URL, task id and generation
state.  It performs no other action: in particular it does not cancel a
pending `setTimeout` of the poll loop and records no guard the loop
could consult, so a poll step scheduled before the reset still runs
afterwards on the post-reset session. -/
def resetUpload (_s : Session) : Session :=
  ⟨none, none, none, zeroGenerateState⟩

/-- Generation state set by `generateVideo` just before the submission
request is sent. -/
def submittingState : GenerateState :=
  ⟨true, true, false, 10, "Creating video generation task..."⟩

/-- The functional update applied to the generation state when task
creation succeeds: polling starts with progress 20. -/
def pollingStartState (prev : GenerateState) : GenerateState :=
  { prev with isUploading := false, isPolling := true, progress := 20,
              status := "Task created. Starting video generation..." }

/-- Session after `generateVideo` received a successful creation
response carrying `tid`: the submitting state was set first, then the
functional update installing the task id and starting polling. -/
def generateVideoSuccess (s : Session) (tid : String) : Session :=
  { s with taskId := some tid,
           generateState := pollingStartState submittingState }

/-! ## The poll loop -/

/-- `maxPolls` of `pollForResults`. -/
def maxPolls : Nat := 200

/-- `pollInterval` of `pollForResults`, in milliseconds. -/
def pollInterval : Nat := 3000

/-- Parsed JSON body of one /api/video/status response as the poll loop
sees it, together with `response.ok`. -/
structure PollData where
  ok : Bool
  status : Option String
  videoUrl : Option String
  error : Option String
deriving DecidableEq

/-- The poll data the orchestrator derives from a status-endpoint
response: `response.ok` is true exactly for a 2xx HTTP status. -/
def toPollData (r : StatusResponse) : PollData :=
  ⟨decide (200 ≤ r.httpStatus ∧ r.httpStatus < 300), r.status, r.videoUrl, r.error⟩

/-- `((pollCount * pollInterval) / 60000).toFixed(1)`: the elapsed time
in minutes rendered with one decimal.  Modelled by exact rational
rounding (half up) of `pollCount·3000/60000`; IEEE-double rounding
inside `toFixed` could differ only at decimal ties, and every poll count
at which a claim evaluates this string has an exact single decimal. -/
def elapsedMinutesStr (pollCount : Nat) : String :=
  let tenths : Nat := (pollCount * 3000 * 10 + 30000) / 60000
  toString (tenths / 10) ++ "." ++ toString (tenths % 10)

/-- `Math.min(20 + (pollCount / maxPolls) * 70, 90)`: the progress
estimate written by a poll iteration. -/
def pollProgress (pollCount : Nat) : Rat :=
  min (20 + ((pollCount : Rat) / (maxPolls : Rat)) * 70) 90

/-- Status line written by a poll iteration before terminal checks. -/
def pollStatusMessage (dataStatus : Option String) (pollCount : Nat) : String :=
  if dataStatus == some "PROCESSING" then
    "Generating your animated video... (" ++ elapsedMinutesStr pollCount
      ++ " minutes elapsed)"
  else "Almost done..."

/-- The timeout error message thrown when the attempt ceiling is hit. -/
def timeoutMessage (pollCount : Nat) : String :=
  "Video generation timed out after " ++ elapsedMinutesStr pollCount
    ++ " minutes. Please try again or use \"speed\" mode for faster generation."

/-- Destructive toast produced by the catch branch of the poll loop. -/
def failToast (msg : String) : Toast := ⟨"Generation failed", msg, true⟩

/-- Success toast produced when a video URL is delivered. -/
def successToast : Toast :=
  ⟨"Success!", "Your animated video has been generated", false⟩

/-- What one poll invocation does after finishing: stop the loop, or
schedule the next invocation after `delayMs` with the new counter. -/
inductive PollControl where
  | stop
  | next (delayMs : Nat) (pollCount : Nat)
deriving DecidableEq

/-- The catch branch of `poll`: reset the generation state (other session
fields untouched) and show a destructive toast. -/
def pollCatch (s : Session) (msg : String) : Session × List Toast × PollControl :=
  ({ s with generateState := zeroGenerateState }, [failToast msg], PollControl.stop)

/-- One invocation of the inner `poll` closure at counter `pollCount`,
on session `s`, with `data` the fetched status response.  Thrown errors
(non-ok response, FAIL status, attempt ceiling) flow into `pollCatch`. -/
def pollStep (pollCount : Nat) (s : Session) (data : PollData) :
    Session × List Toast × PollControl :=
  if data.ok == false then
    pollCatch s (orDefaultStr data.error "Failed to check status")
  else
    let s1 : Session :=
      { s with generateState :=
          { s.generateState with
              progress := pollProgress pollCount,
              status := pollStatusMessage data.status pollCount } }
    if data.status == some "SUCCESS" && strTruthy data.videoUrl then
      ({ s1 with generatedVideoUrl := data.videoUrl,
                 generateState :=
                   ⟨false, false, false, 100, "Video generated successfully!"⟩ },
       [successToast], PollControl.stop)
    else if data.status == some "FAIL" then
      pollCatch s1 "Video generation failed"
    else if pollCount < maxPolls then
      (s1, [], PollControl.next pollInterval (pollCount + 1))
    else
      pollCatch s1 (timeoutMessage pollCount)

/-- Aggregate observation of a whole poll-loop run: final session, all
toasts in order, number of status queries performed, and the scheduling
delays of the `setTimeout` calls in order. -/
structure RunResult where
  finalSession : Session
  toasts : List Toast
  queries : Nat
  delays : List Nat
deriving DecidableEq

/-- Runs the poll loop from counter `pollCount`; `responses` gives the
status response fetched by the invocation at each counter value.  `fuel`
only bounds the recursion and is chosen large enough never to run out. -/
def pollRunAux (responses : Nat → PollData) (s : Session)
    (pollCount fuel : Nat) : RunResult :=
  match fuel with
  | 0 => ⟨s, [], 0, []⟩
  | Nat.succ f =>
    match pollStep pollCount s (responses pollCount) with
    | (s1, ts, PollControl.stop) => ⟨s1, ts, 1, []⟩
    | (s1, ts, PollControl.next d c) =>
      let r := pollRunAux responses s1 c f
      ⟨r.finalSession, ts ++ r.toasts, r.queries + 1, d :: r.delays⟩

/-- `pollForResults`: the first `poll()` runs immediately at counter 0;
fuel `maxPolls + 1` covers every reachable counter value 0..maxPolls. -/
def pollForResults (responses : Nat → PollData) (s : Session) : RunResult :=
  pollRunAux responses s 0 (maxPolls + 1)

/-- A non-terminal poll response: HTTP 200, provider still processing. -/
def processingData : PollData := ⟨true, some "PROCESSING", none, none⟩

/-- A session mid-generation, as produced by a successful submission. -/
def priorSession : Session :=
  ⟨some "data:image/png;base64,AAAA", none, some "task-1",
   pollingStartState submittingState⟩

/-- A successful poll response carrying a video URL, as delivered for a
task that was in flight. -/
def staleSuccessData : PollData :=
  ⟨true, some "SUCCESS", some "https://cdn.example.com/video.mp4", none⟩

/-- The poll-loop run in which every status query reports PROCESSING. -/
def allProcessingRun : RunResult :=
  pollForResults (fun _ => processingData) (generateVideoSuccess emptySession "task-1")

set_option maxRecDepth 10000

/-! ## Helper lemmas -/

/-- The ordered-fallback lookup, filtered by truthiness as the handler
does before adding the key, is exactly the first non-empty field. -/
theorem specFirstNonEmptyUrl_eq_filtered (r : ProviderResult) :
    specFirstNonEmptyUrl r
      = if strTruthy (resolveVideoUrl r) = true then resolveVideoUrl r else none := by
  unfold specFirstNonEmptyUrl urlFields resolveVideoUrl
  by_cases h1 : strTruthy (wrappedUrl r) = true <;>
    by_cases h2 : strTruthy r.video_url = true <;>
      by_cases h3 : strTruthy r.url = true <;>
        by_cases h4 : strTruthy r.video = true <;>
          simp_all [jsOr, List.find?]

/-- A string with the image data-URL prefix is non-empty. -/
theorem ne_empty_of_image_prefix {s : String}
    (h : jsStartsWith s "data:image/" = true) : s ≠ "" := by
  intro he
  subst he
  exact absurd h (by decide)

/-- Truthiness of a present non-empty string. -/
theorem strTruthy_some {u : String} (h : u ≠ "") : strTruthy (some u) = true := by
  simp [strTruthy, h]

/-! ## Claim theorems -/

/-- C1: the spec claims a reset during active polling prevents any
subsequently delivered poll response for the prior task id from mutating
session state.  The code has no such guard: `resetUpload` does not
cancel the scheduled poll and `poll` checks nothing before writing, so
the stale SUCCESS response still installs its video URL and drives
progress to 100 on the post-reset session. -/
theorem c1_stale_response_after_reset_mutates_state :
    ((pollStep 7 (resetUpload priorSession) staleSuccessData).1).generatedVideoUrl
        = some "https://cdn.example.com/video.mp4"
    ∧ ((pollStep 7 (resetUpload priorSession) staleSuccessData).1).generateState.progress
        = 100
    ∧ (pollStep 7 (resetUpload priorSession) staleSuccessData).1
        ≠ resetUpload priorSession := by
  refine ⟨by decide, by decide, by decide⟩

/-- C3 counterexample: when every status query reports PROCESSING, the
loop performs 201 status queries before timing out, not 200: the
counter starts at 0, and the query at counter 200 still runs before the
ceiling test fails. -/
theorem c3_attempt_count_counterexample :
    allProcessingRun.queries = 201 ∧ (201 : Nat) ≠ 200 := by
  refine ⟨by decide, by decide⟩

/-- C3 amended: with no SUCCESS-with-URL and no FAIL, the loop performs
exactly 201 poll attempts (the first immediate, the remaining 200 each
scheduled 3000 ms apart) and then transitions to the timed-out failure,
whose message names an elapsed time of 10.0 minutes and suggests the
faster "speed" quality mode. -/
theorem c3_timeout_after_201_attempts :
    allProcessingRun.queries = 201
    ∧ allProcessingRun.delays = List.replicate 200 pollInterval
    ∧ pollInterval = 3000
    ∧ allProcessingRun.toasts = [failToast (timeoutMessage maxPolls)]
    ∧ timeoutMessage maxPolls
        = "Video generation timed out after 10.0 minutes. Please try again or use \"speed\" mode for faster generation."
    ∧ allProcessingRun.finalSession.generateState = zeroGenerateState := by
  refine ⟨by decide, by decide, by decide, by decide, by decide, by decide⟩

/-- C2: on a SUCCESS provider response the status endpoint resolves the
video URL as the first non-empty field in the priority order
video_result[0].url, video_url, url, video; the same literal URL placed
in any single field resolves identically; the wrapped-list field wins
when several fields are non-empty; and the 200 response carries a
videoUrl key only when the status is SUCCESS and a field was
non-empty. -/
theorem c2_url_resolution_priority :
    (∀ (t : String) (r : ProviderResult), t ≠ "" → r.task_status = "SUCCESS" →
        ((statusGET (some t) (Except.ok r)).1).videoUrl = specFirstNonEmptyUrl r)
    ∧ (∀ (st u : String), u ≠ "" →
        resolveVideoUrl ⟨st, some [⟨some u⟩], none, none, none⟩ = some u
        ∧ resolveVideoUrl ⟨st, none, some u, none, none⟩ = some u
        ∧ resolveVideoUrl ⟨st, none, none, some u, none⟩ = some u
        ∧ resolveVideoUrl ⟨st, none, none, none, some u⟩ = some u)
    ∧ (∀ r : ProviderResult, strTruthy (wrappedUrl r) = true →
        resolveVideoUrl r = wrappedUrl r)
    ∧ (∀ (tp : Option String) (q : Except String ProviderResult),
        ((statusGET tp q).1).videoUrl.isSome = true →
        ∃ r : ProviderResult, q = Except.ok r ∧ r.task_status = "SUCCESS"
          ∧ strTruthy (resolveVideoUrl r) = true
          ∧ ((statusGET tp q).1).videoUrl = resolveVideoUrl r) := by
  refine ⟨?_, ?_, ?_, ?_⟩
  · intro t r ht hs
    have hbeq : (t == "") = false := by simpa using ht
    rw [specFirstNonEmptyUrl_eq_filtered]
    unfold statusGET
    simp only [hbeq, Bool.false_eq_true, if_false, hs]
    by_cases hu : strTruthy (resolveVideoUrl r) = true <;> simp [hu]
  · intro st u hu
    have h := strTruthy_some hu
    refine ⟨?_, ?_, ?_, ?_⟩ <;>
      simp [resolveVideoUrl, jsOr, wrappedUrl, h, strTruthy, hu]
  · intro r h
    simp [resolveVideoUrl, jsOr, h]
  · intro tp q h
    match tp with
    | none => simp [statusGET, statusBadRequest] at h
    | some t =>
      by_cases ht : (t == "") = true
      · simp [statusGET, ht, statusBadRequest] at h
      · match q with
        | Except.error e =>
          simp [statusGET, ht] at h
        | Except.ok r =>
          refine ⟨r, rfl, ?_⟩
          by_cases hs : (r.task_status == "SUCCESS") = true
          · by_cases hu : strTruthy (resolveVideoUrl r) = true
            · refine ⟨by simpa using hs, hu, ?_⟩
              simp [statusGET, ht, hs, hu]
            · simp [statusGET, ht, hs, hu] at h
          · simp [statusGET, ht, hs] at h

/-- C2 witness: the theorem applied to concrete inputs with each
hypothesis discharged. -/
theorem c2_url_resolution_priority_witness :
    ((statusGET (some "task-9")
        (Except.ok ⟨"SUCCESS", none, some "https://a/v.mp4", none, none⟩)).1).videoUrl
      = specFirstNonEmptyUrl ⟨"SUCCESS", none, some "https://a/v.mp4", none, none⟩
    ∧ resolveVideoUrl ⟨"SUCCESS", some [⟨some "https://a/v.mp4"⟩], none, none, none⟩
        = some "https://a/v.mp4"
    ∧ resolveVideoUrl ⟨"SUCCESS", some [⟨some "https://w/w.mp4"⟩], some "https://a/v.mp4",
        some "https://b/x.mp4", some "https://c/y.mp4"⟩
        = wrappedUrl ⟨"SUCCESS", some [⟨some "https://w/w.mp4"⟩], some "https://a/v.mp4",
            some "https://b/x.mp4", some "https://c/y.mp4"⟩ := by
  refine ⟨c2_url_resolution_priority.1 "task-9" _ (by decide) rfl,
          (c2_url_resolution_priority.2.1 "SUCCESS" "https://a/v.mp4" (by decide)).1,
          c2_url_resolution_priority.2.2.1 _ (by decide)⟩

/-- C4: the progress estimate is monotonically non-decreasing in the
poll counter, never exceeds 90, is the value a continuing (unresolved)
iteration writes, equals 100 only when the response is SUCCESS with a
URL, and is 20 on entering the polling state. -/
theorem c4_progress_invariants :
    (∀ k j : Nat, k ≤ j → pollProgress k ≤ pollProgress j)
    ∧ (∀ k : Nat, pollProgress k ≤ 90)
    ∧ (∀ (k : Nat) (s : Session) (d : PollData),
        (pollStep k s d).2.2 = PollControl.next pollInterval (k + 1) →
        ((pollStep k s d).1).generateState.progress = pollProgress k)
    ∧ (∀ (k : Nat) (s : Session) (d : PollData),
        ((pollStep k s d).1).generateState.progress = 100 →
        d.ok = true ∧ d.status = some "SUCCESS" ∧ strTruthy d.videoUrl = true)
    ∧ (∀ (s : Session) (tid : String),
        (generateVideoSuccess s tid).generateState.progress = 20) := by
  have hle90 : ∀ k : Nat, pollProgress k ≤ 90 := fun k => min_le_right _ _
  refine ⟨?_, hle90, ?_, ?_, ?_⟩
  · intro k j hkj
    have hc : (k : Rat) ≤ (j : Rat) := by exact_mod_cast hkj
    unfold pollProgress
    apply min_le_min _ le_rfl
    have hdiv : (k : Rat) / (maxPolls : Nat) * 70 ≤ (j : Rat) / (maxPolls : Nat) * 70 := by
      unfold maxPolls
      push_cast
      linarith
    linarith
  · intro k s d h
    unfold pollStep pollCatch at h ⊢
    by_cases h1 : (d.ok == false) = true
    · simp [h1] at h
    · simp only [h1, Bool.false_eq_true, if_false] at h ⊢
      by_cases h2 : (d.status == some "SUCCESS" && strTruthy d.videoUrl) = true
      · simp [h2] at h
      · simp only [h2, Bool.false_eq_true, if_false] at h ⊢
        by_cases h3 : (d.status == some "FAIL") = true
        · simp [h3] at h
        · simp only [h3, Bool.false_eq_true, if_false] at h ⊢
          by_cases h4 : k < maxPolls
          · simp [h4]
          · simp [h4] at h
  · intro k s d h
    unfold pollStep pollCatch at h
    by_cases h1 : (d.ok == false) = true
    · simp [zeroGenerateState, h1] at h
    · simp only [h1, Bool.false_eq_true, if_false] at h
      by_cases h2 : (d.status == some "SUCCESS" && strTruthy d.videoUrl) = true
      · rw [Bool.and_eq_true] at h2
        refine ⟨?_, by simpa using h2.1, h2.2⟩
        rcases Bool.eq_false_or_eq_true d.ok with hok | hok
        · exact hok
        · rw [hok] at h1; simp at h1
      · exfalso
        simp only [h2, Bool.false_eq_true, if_false] at h
        by_cases h3 : (d.status == some "FAIL") = true
        · simp [zeroGenerateState, h3] at h
        · simp only [h3, Bool.false_eq_true, if_false] at h
          by_cases h4 : k < maxPolls
          · simp [h4] at h
            have := hle90 k
            rw [h] at this
            norm_num at this
          · simp [h4, zeroGenerateState] at h
  · intro s tid
    simp [generateVideoSuccess, pollingStartState, submittingState]

/-- C4 witness: the theorem applied at concrete poll counters, a
concrete continuing step, a concrete successful step, and a concrete
session entering the polling state. -/
theorem c4_progress_invariants_witness :
    pollProgress 3 ≤ pollProgress 7
    ∧ pollProgress 7 ≤ 90
    ∧ ((pollStep 5 priorSession processingData).1).generateState.progress = pollProgress 5
    ∧ (staleSuccessData.ok = true ∧ staleSuccessData.status = some "SUCCESS"
        ∧ strTruthy staleSuccessData.videoUrl = true)
    ∧ (generateVideoSuccess emptySession "task-w").generateState.progress = 20 := by
  refine ⟨c4_progress_invariants.1 3 7 (by norm_num),
          c4_progress_invariants.2.1 7,
          c4_progress_invariants.2.2.1 5 priorSession processingData (by decide),
          c4_progress_invariants.2.2.2.1 0 emptySession staleSuccessData (by decide),
          c4_progress_invariants.2.2.2.2 emptySession "task-w"⟩

/-- C5: with only imageData supplied the provider receives the default
prompt, quality "speed", duration 5, fps 30 and size 1024x1024; when
duration 10, fps 60 and size 1920x1080 are supplied, exactly those
values are forwarded. -/
theorem c5_submission_defaults_and_exact_passthrough :
    (∀ (img : String) (cr : Except String ProviderTask),
        jsStartsWith img "data:image/" = true →
        (generatePOST ⟨some img, none, none, none, none, none⟩ cr).providerCall
          = some ⟨img, "Make this image come alive with smooth, loopable motion",
                  "speed", 5, 30, "1024x1024"⟩)
    ∧ (∀ (img : String) (p q : Option String) (cr : Except String ProviderTask),
        jsStartsWith img "data:image/" = true →
        ∃ pr : ProviderRequest,
          (generatePOST ⟨some img, p, q, some 10, some 60, some "1920x1080"⟩ cr).providerCall
            = some pr
          ∧ pr.image_url = img ∧ pr.duration = 10 ∧ pr.fps = 60 ∧ pr.size = "1920x1080") := by
  constructor
  · intro img cr h
    have hne := ne_empty_of_image_prefix h
    cases cr <;>
      simp [generatePOST, strTruthy, hne, h, orDefaultStr, orDefaultInt, defaultPrompt]
  · intro img p q cr h
    have hne := ne_empty_of_image_prefix h
    refine ⟨⟨img, orDefaultStr p defaultPrompt, orDefaultStr q "speed",
             orDefaultInt (some 10) 5, orDefaultInt (some 60) 30,
             orDefaultStr (some "1920x1080") "1024x1024"⟩,
            ?_, rfl, by simp [orDefaultInt], by simp [orDefaultInt], by simp [orDefaultStr]⟩
    cases cr <;> simp [generatePOST, strTruthy, hne, h]

/-- C5 witness: both scenarios at a concrete image payload. -/
theorem c5_submission_defaults_witness :
    (generatePOST ⟨some "data:image/png;base64,AAAA", none, none, none, none, none⟩
        (Except.ok ⟨"id-1", "PENDING"⟩)).providerCall
      = some ⟨"data:image/png;base64,AAAA",
              "Make this image come alive with smooth, loopable motion",
              "speed", 5, 30, "1024x1024"⟩
    ∧ ∃ pr : ProviderRequest,
        (generatePOST ⟨some "data:image/png;base64,AAAA", some "wave", some "quality",
            some 10, some 60, some "1920x1080"⟩
          (Except.ok ⟨"id-1", "PENDING"⟩)).providerCall = some pr
        ∧ pr.image_url = "data:image/png;base64,AAAA" ∧ pr.duration = 10
        ∧ pr.fps = 60 ∧ pr.size = "1920x1080" := by
  exact ⟨c5_submission_defaults_and_exact_passthrough.1 "data:image/png;base64,AAAA" _
           (by decide),
         c5_submission_defaults_and_exact_passthrough.2 "data:image/png;base64,AAAA"
           (some "wave") (some "quality") _ (by decide)⟩

/-- C6: a submission whose imageData is absent or lacks the image
data-URL prefix gets a 400 with an error object, and neither the
provider client nor the generation call is reached. -/
theorem c6_invalid_image_rejected_without_provider_activity :
    ∀ (body : GenerateBody) (cr : Except String ProviderTask),
      imageDataValid body.imageData = false →
      (generatePOST body cr).response.httpStatus = 400
      ∧ (generatePOST body cr).response.error.isSome = true
      ∧ (generatePOST body cr).clientCreated = false
      ∧ (generatePOST body cr).providerCall = none := by
  intro body cr h
  match hh : body.imageData with
  | none => simp [generatePOST, hh, strTruthy]
  | some img =>
    rw [hh] at h
    by_cases he : img = ""
    · subst he
      simp [generatePOST, hh, strTruthy]
    · have hpre : jsStartsWith img "data:image/" = false := by
        simpa [imageDataValid] using h
      simp [generatePOST, hh, strTruthy, he, hpre]

/-- C6 witness: a present but non-image payload is rejected with no
provider activity. -/
theorem c6_invalid_image_rejected_witness :
    (generatePOST ⟨some "hello", none, none, none, none, none⟩
        (Except.ok ⟨"id-1", "PENDING"⟩)).response.httpStatus = 400
    ∧ (generatePOST ⟨some "hello", none, none, none, none, none⟩
        (Except.ok ⟨"id-1", "PENDING"⟩)).providerCall = none := by
  have h := c6_invalid_image_rejected_without_provider_activity
    ⟨some "hello", none, none, none, none, none⟩ (Except.ok ⟨"id-1", "PENDING"⟩) (by decide)
  exact ⟨h.1, h.2.2.2⟩

/-- C7 counterexample: the taskId query parameter can be present with an
empty value (URL ?taskId=); `searchParams.get` then yields "", which is
falsy, so the handler returns 400 and performs zero provider queries,
refuting that presence alone implies exactly one query. -/
theorem c7_empty_taskid_counterexample :
    (statusGET (some "") (Except.ok ⟨"PROCESSING", none, none, none, none⟩)).2 = 0
    ∧ ((statusGET (some "") (Except.ok ⟨"PROCESSING", none, none, none, none⟩)).1).httpStatus
        = 400
    ∧ (some "" : Option String) ≠ none := by
  refine ⟨by decide, by decide, by decide⟩

/-- C7 amended: an absent or empty taskId yields 400 with an error and
no provider query; a present non-empty taskId yields exactly one
provider query per invocation. -/
theorem c7_taskid_validation_and_single_query :
    (∀ q : Except String ProviderResult,
        statusGET none q = (statusBadRequest, 0)
        ∧ statusBadRequest.httpStatus = 400
        ∧ statusBadRequest.error.isSome = true)
    ∧ (∀ q : Except String ProviderResult, statusGET (some "") q = (statusBadRequest, 0))
    ∧ (∀ (t : String) (q : Except String ProviderResult), t ≠ "" →
        (statusGET (some t) q).2 = 1) := by
  refine ⟨?_, ?_, ?_⟩
  · intro q
    exact ⟨rfl, by decide, by decide⟩
  · intro q
    simp [statusGET]
  · intro t q ht
    have hbeq : (t == "") = false := by simpa using ht
    cases q with
    | error e => simp [statusGET, hbeq]
    | ok r =>
      simp only [statusGET, hbeq, Bool.false_eq_true, if_false]
      by_cases hs : (r.task_status == "SUCCESS") = true <;>
        by_cases hu : strTruthy (resolveVideoUrl r) = true <;>
          simp [hs, hu]

/-- C7 witness: the amended theorem at a concrete non-empty task id and
at concrete queries for the 400 branches. -/
theorem c7_taskid_validation_witness :
    statusGET none (Except.ok ⟨"PROCESSING", none, none, none, none⟩)
      = (statusBadRequest, 0)
    ∧ statusGET (some "") (Except.error "boom") = (statusBadRequest, 0)
    ∧ (statusGET (some "task-1") (Except.ok ⟨"PROCESSING", none, none, none, none⟩)).2 = 1 := by
  exact ⟨(c7_taskid_validation_and_single_query.1 _).1,
         c7_taskid_validation_and_single_query.2.1 _,
         c7_taskid_validation_and_single_query.2.2 "task-1" _ (by decide)⟩

/-- C8 counterexample: a non-image file delivered through drag-and-drop
fails the outer guard of handleDrop and is discarded silently: no toast
is produced, refuting that every invalid file is rejected with a
user-visible message.  (The session is indeed left unchanged.) -/
theorem c8_drop_nonimage_silent_counterexample :
    handleDrop ⟨100, "text/plain"⟩ = UploadAction.ignore
    ∧ (applyUpload emptySession "data:text/plain;base64,Zm9v"
        (handleDrop ⟨100, "text/plain"⟩)).2 = []
    ∧ (applyUpload emptySession "data:text/plain;base64,Zm9v"
        (handleDrop ⟨100, "text/plain"⟩)).1 = emptySession := by
  refine ⟨by decide, by decide, by decide⟩

/-- C8 amended: files at most 10MB with an image MIME type are accepted
by both handlers, and acceptance clears the prior result, task id and
generation state; invalid files leave the session unchanged and — via
the file picker — always get a rejection toast, while drag-and-drop
shows a toast only for oversized image files and silently ignores
non-image files. -/
theorem c8_upload_validation_amended :
    (∀ f : JsFile, f.size ≤ maxFileSize → jsStartsWith f.type "image/" = true →
        handleImageUpload f = UploadAction.accept ∧ handleDrop f = UploadAction.accept)
    ∧ (∀ (s : Session) (d : String),
        applyUpload s d UploadAction.accept
          = (⟨some d, none, none, zeroGenerateState⟩, [uploadedToast]))
    ∧ (∀ f : JsFile, f.size > maxFileSize →
        handleImageUpload f = UploadAction.reject tooLargeToast)
    ∧ (∀ f : JsFile, f.size ≤ maxFileSize → jsStartsWith f.type "image/" = false →
        handleImageUpload f = UploadAction.reject invalidTypeToast)
    ∧ (∀ f : JsFile, jsStartsWith f.type "image/" = true → f.size > maxFileSize →
        handleDrop f = UploadAction.reject tooLargeToast)
    ∧ (∀ f : JsFile, jsStartsWith f.type "image/" = false →
        handleDrop f = UploadAction.ignore)
    ∧ (∀ (s : Session) (d : String) (t : Toast),
        (applyUpload s d (UploadAction.reject t)).1 = s
        ∧ (applyUpload s d UploadAction.ignore).1 = s) := by
  refine ⟨?_, ?_, ?_, ?_, ?_, ?_, ?_⟩
  · intro f h1 h2
    have hng : ¬ f.size > maxFileSize := by omega
    exact ⟨by simp [handleImageUpload, hng, h2], by simp [handleDrop, hng, h2]⟩
  · intro s d
    rfl
  · intro f h
    simp [handleImageUpload, h]
  · intro f h1 h2
    have hng : ¬ f.size > maxFileSize := by omega
    simp [handleImageUpload, hng, h2]
  · intro f h1 h2
    simp [handleDrop, h1, h2]
  · intro f h
    simp [handleDrop, h]
  · intro s d t
    exact ⟨rfl, rfl⟩

/-- C8 witness: the amended theorem at concrete files and sessions. -/
theorem c8_upload_validation_witness :
    handleImageUpload ⟨4096, "image/png"⟩ = UploadAction.accept
    ∧ applyUpload priorSession "data:image/png;base64,BBBB" UploadAction.accept
        = (⟨some "data:image/png;base64,BBBB", none, none, zeroGenerateState⟩,
           [uploadedToast])
    ∧ handleImageUpload ⟨10485761, "image/png"⟩ = UploadAction.reject tooLargeToast
    ∧ handleImageUpload ⟨4096, "text/plain"⟩ = UploadAction.reject invalidTypeToast
    ∧ handleDrop ⟨10485761, "image/png"⟩ = UploadAction.reject tooLargeToast
    ∧ handleDrop ⟨4096, "application/pdf"⟩ = UploadAction.ignore
    ∧ (applyUpload priorSession "x" (UploadAction.reject tooLargeToast)).1 = priorSession := by
  exact ⟨(c8_upload_validation_amended.1 ⟨4096, "image/png"⟩ (by decide) (by decide)).1,
         c8_upload_validation_amended.2.1 priorSession "data:image/png;base64,BBBB",
         c8_upload_validation_amended.2.2.1 ⟨10485761, "image/png"⟩ (by decide),
         c8_upload_validation_amended.2.2.2.1 ⟨4096, "text/plain"⟩ (by decide) (by decide),
         c8_upload_validation_amended.2.2.2.2.1 ⟨10485761, "image/png"⟩ (by decide) (by decide),
         c8_upload_validation_amended.2.2.2.2.2.1 ⟨4096, "application/pdf"⟩ (by decide),
         (c8_upload_validation_amended.2.2.2.2.2.2 priorSession "x" tooLargeToast).1⟩

/-- C9: the submission handler substitutes defaults whenever a supplied
optional field is falsy, not only when absent: an empty prompt, zero
duration, zero fps, or empty size each yield the corresponding default
in the forwarded payload even though the field was present. -/
theorem c9_falsy_optional_fields_get_defaults :
    ∀ (img : String) (p q sz : Option String) (d f : Option Int)
      (cr : Except String ProviderTask),
      jsStartsWith img "data:image/" = true →
      ∃ pr : ProviderRequest,
        (generatePOST ⟨some img, p, q, d, f, sz⟩ cr).providerCall = some pr
        ∧ (p = some "" → pr.prompt = defaultPrompt)
        ∧ (d = some 0 → pr.duration = 5)
        ∧ (f = some 0 → pr.fps = 30)
        ∧ (sz = some "" → pr.size = "1024x1024") := by
  intro img p q sz d f cr h
  have hne := ne_empty_of_image_prefix h
  refine ⟨⟨img, orDefaultStr p defaultPrompt, orDefaultStr q "speed",
           orDefaultInt d 5, orDefaultInt f 30, orDefaultStr sz "1024x1024"⟩,
          ?_, ?_, ?_, ?_, ?_⟩
  · cases cr <;> simp [generatePOST, strTruthy, hne, h]
  · intro hp
    subst hp
    simp [orDefaultStr]
  · intro hd
    subst hd
    simp [orDefaultInt]
  · intro hf
    subst hf
    simp [orDefaultInt]
  · intro hs
    subst hs
    simp [orDefaultStr]

/-- C9 witness: a request with every optional field present but falsy
forwards all the defaults. -/
theorem c9_falsy_optional_fields_witness :
    ∃ pr : ProviderRequest,
      (generatePOST ⟨some "data:image/png;base64,AAAA", some "", some "", some 0, some 0,
          some ""⟩ (Except.ok ⟨"id-1", "PENDING"⟩)).providerCall = some pr
      ∧ pr.prompt = defaultPrompt ∧ pr.duration = 5 ∧ pr.fps = 30 ∧ pr.size = "1024x1024" := by
  obtain ⟨pr, hcall, hp, hd, hf, hs⟩ :=
    c9_falsy_optional_fields_get_defaults "data:image/png;base64,AAAA"
      (some "") (some "") (some "") (some 0) (some 0) (Except.ok ⟨"id-1", "PENDING"⟩)
      (by decide)
  exact ⟨pr, hcall, hp rfl, hd rfl, hf rfl, hs rfl⟩

/-- C10: a SUCCESS provider response in which none of the four
recognized URL fields is non-empty yields a 200 response with status
SUCCESS and no videoUrl key; the orchestrator treats the corresponding
poll data as non-terminal — below the ceiling it schedules the next
poll without touching the resolved video URL and without any toast, and
at the ceiling it stops with the timeout failure. -/
theorem c10_success_without_url_is_nonterminal :
    (∀ (t : String) (r : ProviderResult), t ≠ "" →
        r.task_status = "SUCCESS" →
        strTruthy (wrappedUrl r) = false → strTruthy r.video_url = false →
        strTruthy r.url = false → strTruthy r.video = false →
        ((statusGET (some t) (Except.ok r)).1).httpStatus = 200
        ∧ ((statusGET (some t) (Except.ok r)).1).status = some "SUCCESS"
        ∧ ((statusGET (some t) (Except.ok r)).1).videoUrl = none)
    ∧ (∀ r : StatusResponse, r.httpStatus = 200 →
        toPollData r = ⟨true, r.status, r.videoUrl, r.error⟩)
    ∧ (∀ (k : Nat) (s : Session) (d : PollData),
        d.ok = true → d.status = some "SUCCESS" → d.videoUrl = none →
        k < maxPolls →
        (pollStep k s d).2.2 = PollControl.next pollInterval (k + 1)
        ∧ ((pollStep k s d).1).generatedVideoUrl = s.generatedVideoUrl
        ∧ (pollStep k s d).2.1 = [])
    ∧ (∀ (s : Session) (d : PollData),
        d.ok = true → d.status = some "SUCCESS" → d.videoUrl = none →
        (pollStep maxPolls s d).2.2 = PollControl.stop
        ∧ (pollStep maxPolls s d).2.1 = [failToast (timeoutMessage maxPolls)]) := by
  refine ⟨?_, ?_, ?_, ?_⟩
  · intro t r ht hs h1 h2 h3 h4
    have hbeq : (t == "") = false := by simpa using ht
    have hru : strTruthy (resolveVideoUrl r) = false := by
      simp [resolveVideoUrl, jsOr, h1, h2, h3, h4]
    simp [statusGET, hbeq, hs, hru]
  · intro r h
    simp [toPollData, h]
  · intro k s d hok hst hurl hk
    have e1 : (d.ok == false) = false := by rw [hok]; rfl
    have e2 : (d.status == some "SUCCESS" && strTruthy d.videoUrl) = false := by
      rw [hurl]
      simp [strTruthy]
    have e3 : (d.status == some "FAIL") = false := by rw [hst]; decide
    unfold pollStep
    simp [e1, e2, e3, hk]
  · intro s d hok hst hurl
    have e1 : (d.ok == false) = false := by rw [hok]; rfl
    have e2 : (d.status == some "SUCCESS" && strTruthy d.videoUrl) = false := by
      rw [hurl]
      simp [strTruthy]
    have e3 : (d.status == some "FAIL") = false := by rw [hst]; decide
    unfold pollStep pollCatch
    simp [e1, e2, e3]

/-- C10 witness: a concrete SUCCESS response with all four URL fields
empty or absent, its poll data, a continuing step below the ceiling and
the timeout step at the ceiling. -/
theorem c10_success_without_url_witness :
    ((statusGET (some "task-1")
        (Except.ok ⟨"SUCCESS", some [], some "", none, none⟩)).1).videoUrl = none
    ∧ toPollData ⟨200, some "task-1", some "SUCCESS", none, none⟩
        = ⟨true, some "SUCCESS", none, none⟩
    ∧ (pollStep 5 priorSession ⟨true, some "SUCCESS", none, none⟩).2.2
        = PollControl.next pollInterval 6
    ∧ (pollStep maxPolls priorSession ⟨true, some "SUCCESS", none, none⟩).2.2
        = PollControl.stop := by
  refine ⟨(c10_success_without_url_is_nonterminal.1 "task-1"
            ⟨"SUCCESS", some [], some "", none, none⟩
            (by decide) rfl (by decide) (by decide) (by decide) (by decide)).2.2,
          c10_success_without_url_is_nonterminal.2.1
            ⟨200, some "task-1", some "SUCCESS", none, none⟩ rfl,
          (c10_success_without_url_is_nonterminal.2.2.1 5 priorSession
            ⟨true, some "SUCCESS", none, none⟩ rfl rfl rfl (by decide)).1,
          (c10_success_without_url_is_nonterminal.2.2.2 priorSession
            ⟨true, some "SUCCESS", none, none⟩ rfl rfl rfl).1⟩
